import Mathlib

/-!
Verification of the HDF5 C lexer (`docs/design_doc/hdf5-c-lexer.py`).

The file under verification subclasses the Pygments `CLexer` and overrides
`get_tokens_unprocessed`: it iterates over the token triples
`(index, token, value)` produced by the inherited C lexer and, whenever the
token type is exactly `Name` (Python identity test `token is Name`) and the
value is a member of the static list `EXTRA_KEYWORDS`, yields the triple with
the token type replaced by `Keyword`; every other triple is yielded unchanged.

We embed the token stream as a `List Token` (the output of the upstream,
third-party C lexer, which is outside this repository) and the override as a
map over that list.
-/

/-- Pygments token types, modelled as distinct values of an inductive type.
In Pygments, `Name.Function`, `Name.Builtin`, `Name.Class` and so on are
distinct objects from `Name` itself, so the Python identity test
`token is Name` succeeds exactly on `Name` and on none of its subtypes;
modelling each type as its own constructor captures that identity semantics
as constructor equality. -/
inductive TokenType where
  | Name
  | NameFunction
  | NameBuiltin
  | NameClass
  | Keyword
  | KeywordType
  | Comment
  | Operator
  | Number
  | Text
  | StringLiteral
  | Punctuation
  deriving DecidableEq

/-- Those token types of the model that are strict subtypes of the Pygments
`Name` token type (children of `Name` in the Pygments token hierarchy, not
`Name` itself). -/
def TokenType.isStrictNameSubtype : TokenType → Bool
  | TokenType.NameFunction => true
  | TokenType.NameBuiltin => true
  | TokenType.NameClass => true
  | _ => false

/-- A token triple `(index, token, value)` as yielded by a Pygments
`get_tokens_unprocessed` generator: stream position in the source text,
token type, and token text. -/
structure Token where
  index : Nat
  token : TokenType
  value : String
  deriving DecidableEq

namespace HDF5CLexer

/-- The static keyword list `HDF5CLexer.EXTRA_KEYWORDS`, verbatim from the
source. -/
def EXTRA_KEYWORDS : List String :=
  ["hid_t", "herr_t", "hbool_t", "hsize_t", "htri_t", "H5I_type_t",
   "haddr_t", "uuid_t", "H5VL_token_t", "H5R_ref_t", "H5R_type_t",
   "H5O_type_t", "H5G_obj_t", "hobj_ref_t", "hdset_reg_ref_t",
   "MPI_Comm", "MPI_Info"]

/-- The body of the loop in `HDF5CLexer.get_tokens_unprocessed`, applied to
one token triple of the upstream stream: if the token type is exactly `Name`
and the value is in `EXTRA_KEYWORDS`, yield `(index, Keyword, value)`,
otherwise yield the triple unchanged. -/
def processToken (t : Token) : Token :=
  if t.token = TokenType.Name ∧ t.value ∈ EXTRA_KEYWORDS then
    ⟨t.index, TokenType.Keyword, t.value⟩
  else
    t

/-- The override `HDF5CLexer.get_tokens_unprocessed`: the generator loop over
the token stream produced by the inherited `CLexer.get_tokens_unprocessed`
(the upstream stream `ts` is this embedding's input), yielding the loop body's
result for each token in order. -/
def get_tokens_unprocessed (ts : List Token) : List Token :=
  ts.map processToken

/-- The output stream has the same length as the input stream. -/
theorem length_get_tokens_unprocessed (ts : List Token) :
    (get_tokens_unprocessed ts).length = ts.length :=
  List.length_map ts processToken

/-- The output token at index `i` is the loop body applied to the input token
at index `i`. -/
theorem get_get_tokens_unprocessed (ts : List Token) (i : Nat)
    (h : i < ts.length) (h2 : i < (get_tokens_unprocessed ts).length) :
    (get_tokens_unprocessed ts).get ⟨i, h2⟩ = processToken (ts.get ⟨i, h⟩) := by
  simp [get_tokens_unprocessed]

/-- The loop body is idempotent on a single token: a reclassified token has
token type `Keyword`, which is not `Name`, so the second pass leaves it
alone. -/
theorem processToken_idem (t : Token) :
    processToken (processToken t) = processToken t := by
  unfold processToken
  by_cases hc : t.token = TokenType.Name ∧ t.value ∈ EXTRA_KEYWORDS
  · simp [hc]
  · simp [hc]

end HDF5CLexer

/-- C1: for every token triple in the input stream whose token type is exactly
`Name` and whose value is in `EXTRA_KEYWORDS`, `get_tokens_unprocessed` yields
at the same stream place the triple with token type `Keyword` and the index
and value unchanged. -/
theorem C1_name_keyword_reclassified (ts : List Token) (i : Nat)
    (h : i < ts.length) (h2 : i < (HDF5CLexer.get_tokens_unprocessed ts).length)
    (hcat : (ts.get ⟨i, h⟩).token = TokenType.Name)
    (hkw : (ts.get ⟨i, h⟩).value ∈ HDF5CLexer.EXTRA_KEYWORDS) :
    (HDF5CLexer.get_tokens_unprocessed ts).get ⟨i, h2⟩ =
      ⟨(ts.get ⟨i, h⟩).index, TokenType.Keyword, (ts.get ⟨i, h⟩).value⟩ := by
  rw [HDF5CLexer.get_get_tokens_unprocessed ts i h h2]
  unfold HDF5CLexer.processToken
  rw [if_pos ⟨hcat, hkw⟩]

/-- C1 witness: the stream `[(10, Name, "hid_t")]` has its single token
reclassified to `(10, Keyword, "hid_t")`. -/
theorem C1_witness :
    (HDF5CLexer.get_tokens_unprocessed [⟨10, TokenType.Name, "hid_t"⟩]).get
        ⟨0, by decide⟩ = ⟨10, TokenType.Keyword, "hid_t"⟩ :=
  C1_name_keyword_reclassified [⟨10, TokenType.Name, "hid_t"⟩] 0
    (by decide) (by decide) (by decide) (by decide)

/-- C2 counterexample: `EXTRA_KEYWORDS` does not contain 18 strings. -/
theorem C2_counterexample : ¬ HDF5CLexer.EXTRA_KEYWORDS.length = 18 := by
  decide

/-- C2 (amended): the static keyword list `EXTRA_KEYWORDS` contains exactly
17 literal identifier strings. -/
theorem C2_keyword_count : HDF5CLexer.EXTRA_KEYWORDS.length = 17 := by
  decide

/-- C3: every input token that does not satisfy the match condition (token
type exactly `Name` and value in the keyword list) is passed through
unchanged: same index, same token type, same value. -/
theorem C3_nonmatching_unchanged (ts : List Token) (i : Nat)
    (h : i < ts.length) (h2 : i < (HDF5CLexer.get_tokens_unprocessed ts).length)
    (hno : ¬((ts.get ⟨i, h⟩).token = TokenType.Name ∧
      (ts.get ⟨i, h⟩).value ∈ HDF5CLexer.EXTRA_KEYWORDS)) :
    (HDF5CLexer.get_tokens_unprocessed ts).get ⟨i, h2⟩ = ts.get ⟨i, h⟩ := by
  rw [HDF5CLexer.get_get_tokens_unprocessed ts i h h2]
  unfold HDF5CLexer.processToken
  rw [if_neg hno]

/-- C3 witness: the non-keyword identifier token `(20, Name, "int")` passes
through unchanged. -/
theorem C3_witness :
    (HDF5CLexer.get_tokens_unprocessed [⟨20, TokenType.Name, "int"⟩]).get
        ⟨0, by decide⟩ = ⟨20, TokenType.Name, "int"⟩ :=
  C3_nonmatching_unchanged [⟨20, TokenType.Name, "int"⟩] 0
    (by decide) (by decide) (by decide)

/-- C4: for every input stream, the output of `get_tokens_unprocessed` has
the same length, and the token at every position is the per-token map applied
to the input token at that same position: the filter is a one-to-one,
order-preserving map that never inserts, deletes, merges or reorders
tokens. -/
theorem C4_one_to_one_map (ts : List Token) :
    (HDF5CLexer.get_tokens_unprocessed ts).length = ts.length ∧
    ∀ (i : Nat) (h : i < ts.length)
      (h2 : i < (HDF5CLexer.get_tokens_unprocessed ts).length),
      (HDF5CLexer.get_tokens_unprocessed ts).get ⟨i, h2⟩ =
        HDF5CLexer.processToken (ts.get ⟨i, h⟩) :=
  ⟨HDF5CLexer.length_get_tokens_unprocessed ts,
   fun i h h2 => HDF5CLexer.get_get_tokens_unprocessed ts i h h2⟩

/-- C4 witness: on the two-token stream
`[(0, Name, "hid_t"), (7, Comment, "x")]` the output has length 2 and its
token at position 1 is the per-token map of the input token at position 1. -/
theorem C4_witness :
    (HDF5CLexer.get_tokens_unprocessed
        [⟨0, TokenType.Name, "hid_t"⟩, ⟨7, TokenType.Comment, "x"⟩]).length
      = 2 ∧
    (HDF5CLexer.get_tokens_unprocessed
        [⟨0, TokenType.Name, "hid_t"⟩, ⟨7, TokenType.Comment, "x"⟩]).get
        ⟨1, by decide⟩ =
      HDF5CLexer.processToken ⟨7, TokenType.Comment, "x"⟩ :=
  ⟨(C4_one_to_one_map
      [⟨0, TokenType.Name, "hid_t"⟩, ⟨7, TokenType.Comment, "x"⟩]).1,
   (C4_one_to_one_map
      [⟨0, TokenType.Name, "hid_t"⟩, ⟨7, TokenType.Comment, "x"⟩]).2 1
      (by decide) (by decide)⟩

/-- C5: the filter is idempotent: applying `get_tokens_unprocessed` to a
stream that is already its own output leaves every token unchanged, because a
reclassified token has token type `Keyword`, which fails the match condition
requiring token type `Name`. -/
theorem C5_idempotent (ts : List Token) :
    HDF5CLexer.get_tokens_unprocessed (HDF5CLexer.get_tokens_unprocessed ts) =
      HDF5CLexer.get_tokens_unprocessed ts := by
  unfold HDF5CLexer.get_tokens_unprocessed
  rw [List.map_map]
  exact List.map_congr_left fun t _ => HDF5CLexer.processToken_idem t

/-- C6: the output token at any stream position depends only on the input
token at that same position: two input streams that agree at position `i`
produce equal outputs at position `i`, whatever their other tokens are. -/
theorem C6_position_local (ts1 ts2 : List Token) (i : Nat)
    (h1 : i < ts1.length) (h2 : i < ts2.length)
    (g1 : i < (HDF5CLexer.get_tokens_unprocessed ts1).length)
    (g2 : i < (HDF5CLexer.get_tokens_unprocessed ts2).length)
    (heq : ts1.get ⟨i, h1⟩ = ts2.get ⟨i, h2⟩) :
    (HDF5CLexer.get_tokens_unprocessed ts1).get ⟨i, g1⟩ =
      (HDF5CLexer.get_tokens_unprocessed ts2).get ⟨i, g2⟩ := by
  rw [HDF5CLexer.get_get_tokens_unprocessed ts1 i h1 g1,
    HDF5CLexer.get_get_tokens_unprocessed ts2 i h2 g2, heq]

/-- C6 witness: two different streams that carry `(0, Name, "hid_t")` at
position 0 yield the same output token at position 0. -/
theorem C6_witness :
    (HDF5CLexer.get_tokens_unprocessed
        [⟨0, TokenType.Name, "hid_t"⟩, ⟨9, TokenType.Comment, "y"⟩]).get
        ⟨0, by decide⟩ =
      (HDF5CLexer.get_tokens_unprocessed [⟨0, TokenType.Name, "hid_t"⟩]).get
        ⟨0, by decide⟩ :=
  C6_position_local
    [⟨0, TokenType.Name, "hid_t"⟩, ⟨9, TokenType.Comment, "y"⟩]
    [⟨0, TokenType.Name, "hid_t"⟩] 0
    (by decide) (by decide) (by decide) (by decide) (by decide)

/-- C7: concrete examples: `(10, Name, "hid_t")` maps to
`(10, Keyword, "hid_t")`; `(20, Name, "int")` maps to itself; and
`(5, Comment, "hid_t")` maps to itself because its token type is not
`Name`. -/
theorem C7_examples :
    HDF5CLexer.get_tokens_unprocessed [⟨10, TokenType.Name, "hid_t"⟩] =
      [⟨10, TokenType.Keyword, "hid_t"⟩] ∧
    HDF5CLexer.get_tokens_unprocessed [⟨20, TokenType.Name, "int"⟩] =
      [⟨20, TokenType.Name, "int"⟩] ∧
    HDF5CLexer.get_tokens_unprocessed [⟨5, TokenType.Comment, "hid_t"⟩] =
      [⟨5, TokenType.Comment, "hid_t"⟩] := by
  decide

/-- C8: the filter is total: for every token stream the upstream lexer can
produce, `get_tokens_unprocessed` produces an output stream (of the same
length); the membership test and the token-type reassignment cannot fail, so
the filter introduces no failure mode of its own. -/
theorem C8_total (ts : List Token) :
    ∃ out : List Token, HDF5CLexer.get_tokens_unprocessed ts = out ∧
      out.length = ts.length :=
  ⟨HDF5CLexer.get_tokens_unprocessed ts, rfl,
    HDF5CLexer.length_get_tokens_unprocessed ts⟩

/-- C9: a token whose token type is a strict subtype of `Name` (such as
`Name.Function`, `Name.Builtin` or `Name.Class`) is never reclassified, even
when its value is in the keyword list, because the match tests exact
token-type identity; the token passes through unchanged. -/
theorem C9_strict_subtype_unchanged (ts : List Token) (i : Nat)
    (h : i < ts.length) (h2 : i < (HDF5CLexer.get_tokens_unprocessed ts).length)
    (hsub : ((ts.get ⟨i, h⟩).token).isStrictNameSubtype = true)
    (_hkw : (ts.get ⟨i, h⟩).value ∈ HDF5CLexer.EXTRA_KEYWORDS) :
    (HDF5CLexer.get_tokens_unprocessed ts).get ⟨i, h2⟩ = ts.get ⟨i, h⟩ := by
  rw [HDF5CLexer.get_get_tokens_unprocessed ts i h h2]
  unfold HDF5CLexer.processToken
  rw [if_neg]
  intro hc
  rw [hc.1] at hsub
  exact Bool.false_ne_true hsub

/-- C9 witness: the token `(3, Name.Function, "hid_t")` passes through
unchanged although its value is in the keyword list. -/
theorem C9_witness :
    (HDF5CLexer.get_tokens_unprocessed [⟨3, TokenType.NameFunction, "hid_t"⟩]).get
        ⟨0, by decide⟩ = ⟨3, TokenType.NameFunction, "hid_t"⟩ :=
  C9_strict_subtype_unchanged [⟨3, TokenType.NameFunction, "hid_t"⟩] 0
    (by decide) (by decide) (by decide) (by decide)

/-- C10: output invariant: no token in the output of
`get_tokens_unprocessed` has token type exactly `Name` together with a value
that is a member of `EXTRA_KEYWORDS`. -/
theorem C10_no_matching_output (ts : List Token) (t : Token)
    (ht : t ∈ HDF5CLexer.get_tokens_unprocessed ts) :
    ¬(t.token = TokenType.Name ∧ t.value ∈ HDF5CLexer.EXTRA_KEYWORDS) := by
  unfold HDF5CLexer.get_tokens_unprocessed at ht
  obtain ⟨s, _, hst⟩ := List.mem_map.mp ht
  subst hst
  unfold HDF5CLexer.processToken
  by_cases hc : s.token = TokenType.Name ∧ s.value ∈ HDF5CLexer.EXTRA_KEYWORDS
  · rw [if_pos hc]
    intro habs
    exact TokenType.noConfusion habs.1
  · rw [if_neg hc]
    exact hc

/-- C10 witness: on the stream `[(10, Name, "hid_t")]` the output token
`(10, Keyword, "hid_t")` satisfies the invariant. -/
theorem C10_witness :
    ¬((Token.mk 10 TokenType.Keyword "hid_t").token = TokenType.Name ∧
      (Token.mk 10 TokenType.Keyword "hid_t").value ∈
        HDF5CLexer.EXTRA_KEYWORDS) :=
  C10_no_matching_output [⟨10, TokenType.Name, "hid_t"⟩]
    ⟨10, TokenType.Keyword, "hid_t"⟩ (by decide)
